import Mathlib

/-!
Shallow embedding of the Stylus fixed-rate market contract (`src/lib.rs`).

Addresses and `U256`/`U64` machine integers are modelled as `Nat`, with the
zero address written `0` and overflow made explicit through `checked_mul`,
`checked_div` and a `% 2^64` on the market counter.  Storage is the
`Contract` record; external ERC-20 calls are recorded in an emitted call
list, and their success verdict is supplied by an `Env` (the source discards
that verdict with `let _ = ...`, and the embedding mirrors that).
-/

deriving instance DecidableEq for Except

namespace StylusDorg

/-- Modulus of the 256-bit unsigned integers (`U256`) used for rates and amounts. -/
def U256MOD : Nat := 2 ^ 256

/-- Modulus of the 64-bit unsigned integers (`U64`) used for the market counter. -/
def U64MOD : Nat := 2 ^ 64

/-- `U256::checked_div`: `none` exactly when the divisor is zero. -/
def checked_div (a b : Nat) : Option Nat :=
  if b = 0 then none else some (a / b)

/-- `U256::checked_mul`: `none` exactly when the product overflows 256 bits. -/
def checked_mul (a b : Nat) : Option Nat :=
  if a * b < U256MOD then some (a * b) else none

/-- The `Market` storage struct: base token, quote token, exchange rate. -/
structure Market where
  base_token : Nat
  quote_token : Nat
  exchange_rate : Nat
deriving DecidableEq

/-- The all-zero market every unwritten `markets` slot holds (Solidity mapping default). -/
def defaultMarket : Market := ⟨0, 0, 0⟩

/-- The persistent storage of the `Contract` entrypoint: `initialized`,
`market_index`, the `markets` mapping and the two-level `indexes` mapping.
Mappings are total functions with the Solidity zero default. -/
structure Contract where
  initialized : Bool
  market_index : Nat
  markets : Nat → Market
  indexes : Nat → Nat → Nat

/-- Freshly deployed storage: every slot at its zero default. -/
def initialContract : Contract :=
  ⟨false, 0, fun _ => defaultMarket, fun _ _ => 0⟩

/-- The `ContractError` enum. -/
inductive ContractError where
  | AlreadyInitialized
  | MarketExists
  | BaseTokenCanNotBeZeroAddress
  | QuoteTokenCanNotBeZeroAddress
  | ExchangeRateCanNotBeZero
  | AmountCanNotBeZero
  | IncorrectBaseAmount
  | IncorrectQuoteAmount
  | DivisionUnderflow
  | MultiplicationOverflow
  | OutOfBoundIndex
deriving DecidableEq

/-- An external ERC-20 call issued through the `IErc20` interface. -/
inductive TokenCall where
  | transferFrom (token sender recipient amount : Nat)
  | transfer (token recipient amount : Nat)
deriving DecidableEq

/-- Events logged with `evm::log`. -/
inductive Event where
  | Initialized
  | MarketCreated (base_token quote_token exchange_rate : Nat)
  | SwappedBaseTokenForQuoteToken (base_token quote_token amount_in amount_out : Nat)
deriving DecidableEq

/-- The call context: `msg::sender()`, `contract::address()`, and the external
world's verdict on each token call (whether that call succeeds). -/
structure Env where
  sender : Nat
  contractAddress : Nat
  callOk : TokenCall → Bool

/-- Outcome of one public method: the ABI return value, the storage after the
call, the external token calls it issued, and the events it logged. -/
structure MResult (α : Type) where
  ret : Except ContractError α
  state : Contract
  calls : List TokenCall
  events : List Event

/-- An early `return Err(..)`: storage untouched, no calls, no events. -/
def errRes {α : Type} (e : ContractError) (s : Contract) : MResult α :=
  ⟨.error e, s, [], []⟩

/-- Pointwise update of the `markets` mapping. -/
def updMarkets (f : Nat → Market) (k : Nat) (v : Market) : Nat → Market :=
  fun n => if n = k then v else f n

/-- Pointwise update of the two-level `indexes` mapping. -/
def updIndexes (f : Nat → Nat → Nat) (b q v : Nat) : Nat → Nat → Nat :=
  fun x y => if x = b ∧ y = q then v else f x y

/-- `Contract::initialize`. -/
def initializeContract (s : Contract) : MResult Unit :=
  if s.initialized then errRes .AlreadyInitialized s
  else
    ⟨.ok (), ⟨true, 1, s.markets, s.indexes⟩, [], [.Initialized]⟩

/-- `Contract::create_market`, translated guard for guard from the source:
zero-rate / zero-address checks, the two amount cross-checks, the
market-existence check, the three storage writes, the counter increment,
the two `transfer_from` calls whose results the source discards
(`let _ = ...`), the `MarketCreated` log, and the post-increment return. -/
def create_market (env : Env) (s : Contract)
    (base_token quote_token exchange_rate base_amount quote_amount : Nat) :
    MResult Nat :=
  if exchange_rate = 0 then errRes .ExchangeRateCanNotBeZero s
  else if base_token = 0 then errRes .BaseTokenCanNotBeZeroAddress s
  else if quote_token = 0 then errRes .QuoteTokenCanNotBeZeroAddress s
  else
    match checked_div quote_amount exchange_rate with
    | none => errRes .DivisionUnderflow s
    | some expected_base_amount =>
      if base_amount ≠ expected_base_amount then errRes .IncorrectBaseAmount s
      else
        match checked_mul base_amount exchange_rate with
        | none => errRes .MultiplicationOverflow s
        | some expected_quote_amount =>
          if quote_amount ≠ expected_quote_amount then errRes .IncorrectQuoteAmount s
          else
            let current_market_index := s.market_index
            let market_index := s.indexes base_token quote_token
            if market_index ≠ 0 then errRes .MarketExists s
            else
              let markets' := updMarkets s.markets current_market_index
                ⟨base_token, quote_token, exchange_rate⟩
              let indexes' := updIndexes s.indexes base_token quote_token
                current_market_index
              let new_market_index := (current_market_index + 1) % U64MOD
              let s' : Contract := ⟨s.initialized, new_market_index, markets', indexes'⟩
              let c1 := TokenCall.transferFrom base_token env.sender
                env.contractAddress base_amount
              let _ok1 := env.callOk c1
              let c2 := TokenCall.transferFrom quote_token env.sender
                env.contractAddress quote_amount
              let _ok2 := env.callOk c2
              ⟨.ok new_market_index, s',
                [c1, c2],
                [.MarketCreated base_token quote_token exchange_rate]⟩

/-- `Contract::swap_base_token_for_quote_token`: zero checks, market lookup
through `indexes` (a zero index lands on the default market), checked
multiplication by the market's rate, a `transfer_from` pulling the base
amount and a `transfer` pushing the quote amount (results discarded), and
the swap log.  No storage write. -/
def swap_base_token_for_quote_token (env : Env) (s : Contract)
    (base_token quote_token base_amount : Nat) : MResult Unit :=
  if base_amount = 0 then errRes .AmountCanNotBeZero s
  else if base_token = 0 then errRes .BaseTokenCanNotBeZeroAddress s
  else if quote_token = 0 then errRes .QuoteTokenCanNotBeZeroAddress s
  else
    let market_index := s.indexes base_token quote_token
    let market := s.markets market_index
    let exchange_rate := market.exchange_rate
    match checked_mul base_amount exchange_rate with
    | none => errRes .MultiplicationOverflow s
    | some quote_amount =>
      let c1 := TokenCall.transferFrom market.base_token env.sender
        env.contractAddress base_amount
      let _ok1 := env.callOk c1
      let c2 := TokenCall.transfer market.quote_token env.sender quote_amount
      let _ok2 := env.callOk c2
      ⟨.ok (), s,
        [c1, c2],
        [.SwappedBaseTokenForQuoteToken base_token quote_token base_amount quote_amount]⟩

/-- `Contract::swap_quote_token_for_base_token`: zero checks, market lookup,
checked division by the market's rate (`DivisionUnderflow` when the rate is
zero), a `transfer_from` pulling the quote amount and a `transfer` pushing
the base amount (results discarded).  No storage write and no event. -/
def swap_quote_token_for_base_token (env : Env) (s : Contract)
    (base_token quote_token quote_amount : Nat) : MResult Unit :=
  if quote_amount = 0 then errRes .AmountCanNotBeZero s
  else if base_token = 0 then errRes .BaseTokenCanNotBeZeroAddress s
  else if quote_token = 0 then errRes .QuoteTokenCanNotBeZeroAddress s
  else
    let market_index := s.indexes base_token quote_token
    let market := s.markets market_index
    let exchange_rate := market.exchange_rate
    match checked_div quote_amount exchange_rate with
    | none => errRes .DivisionUnderflow s
    | some base_amount =>
      let c1 := TokenCall.transferFrom market.quote_token env.sender
        env.contractAddress quote_amount
      let _ok1 := env.callOk c1
      let c2 := TokenCall.transfer market.base_token env.sender base_amount
      let _ok2 := env.callOk c2
      ⟨.ok (), s, [c1, c2], []⟩

/-- `Contract::fetch_initialization_status`. -/
def fetch_initialization_status (s : Contract) : Except ContractError Bool :=
  .ok s.initialized

/-- `Contract::fetch_current_market_index`. -/
def fetch_current_market_index (s : Contract) : Except ContractError Nat :=
  .ok s.market_index

/-- `Contract::fetch_exchange_rate`. -/
def fetch_exchange_rate (s : Contract) (base_token quote_token : Nat) :
    Except ContractError Nat :=
  if base_token = 0 then .error .BaseTokenCanNotBeZeroAddress
  else if quote_token = 0 then .error .QuoteTokenCanNotBeZeroAddress
  else .ok (s.markets (s.indexes base_token quote_token)).exchange_rate

/-- `Contract::fetch_market_id`. -/
def fetch_market_id (s : Contract) (base_token quote_token : Nat) :
    Except ContractError Nat :=
  if base_token = 0 then .error .BaseTokenCanNotBeZeroAddress
  else if quote_token = 0 then .error .QuoteTokenCanNotBeZeroAddress
  else .ok (s.indexes base_token quote_token)

/-- `Contract::fetch_market_by_tokens`. -/
def fetch_market_by_tokens (s : Contract) (base_token quote_token : Nat) :
    Except ContractError (Nat × Nat × Nat) :=
  if base_token = 0 then .error .BaseTokenCanNotBeZeroAddress
  else if quote_token = 0 then .error .QuoteTokenCanNotBeZeroAddress
  else
    let market := s.markets (s.indexes base_token quote_token)
    .ok (market.base_token, market.quote_token, market.exchange_rate)

/-- `Contract::fetch_market_by_id`. -/
def fetch_market_by_id (s : Contract) (market_index : Nat) :
    Except ContractError (Nat × Nat × Nat) :=
  if market_index ≥ s.market_index ∨ market_index = 0 then .error .OutOfBoundIndex
  else
    let market := s.markets market_index
    .ok (market.base_token, market.quote_token, market.exchange_rate)

/-- One public mutating call against the contract: the storage moves to
whatever storage that call returns (errors return it unchanged). -/
inductive Step : Contract → Contract → Prop where
  | init (s : Contract) : Step s (initializeContract s).state
  | create (env : Env) (s : Contract) (b q r ba qa : Nat) :
      Step s (create_market env s b q r ba qa).state
  | swapB (env : Env) (s : Contract) (b q a : Nat) :
      Step s (swap_base_token_for_quote_token env s b q a).state
  | swapQ (env : Env) (s : Contract) (b q a : Nat) :
      Step s (swap_quote_token_for_base_token env s b q a).state

/-- Zero or more public mutating calls. -/
inductive Reach : Contract → Contract → Prop where
  | refl (s : Contract) : Reach s s
  | tail {s t u : Contract} : Reach s t → Step t u → Reach s u

/-- An environment in which every external token call succeeds. -/
def env0 : Env := ⟨100, 200, fun _ => true⟩

/-- An environment in which every external token call fails (reverts). -/
def envFail : Env := ⟨100, 200, fun _ => false⟩

/-- A freshly initialized registry: `initialize` has run, no markets yet. -/
def s_init : Contract := ⟨true, 1, fun _ => defaultMarket, fun _ _ => 0⟩

/-- The initialized registry after a successful `create_market(1, 2, 3, 2, 6)`:
one market `(1, 2, 3)` stored at slot 1. -/
def s_mkt : Contract := (create_market env0 s_init 1 2 3 2 6).state

/-- The registry after `create_market(1, 2, 3, 1, 3)` on a never-initialized
registry: the market lands in slot 0 and `indexes 1 2` stays 0. -/
def s_slot0 : Contract := (create_market env0 initialContract 1 2 3 1 3).state

/-- Step 1 of the C7 scenario: `create_market(1, 2, 1, 1, 1)` before `initialize`. -/
def s7a : Contract := (create_market env0 initialContract 1 2 1 1 1).state

/-- Step 2: `create_market(1, 3, 1, 1, 1)`, stored at slot 1 with `indexes 1 3 = 1`. -/
def s7b : Contract := (create_market env0 s7a 1 3 1 1 1).state

/-- Step 3: `initialize`, which resets the market counter to 1. -/
def s7c : Contract := (initializeContract s7b).state

/-- Step 4: `create_market(4, 5, 1, 1, 1)`, which overwrites slot 1. -/
def s7d : Contract := (create_market env0 s7c 4 5 1 1 1).state

/-! ## Helper lemmas -/

/-- `initialize` never touches the `indexes` mapping. -/
theorem initializeContract_state_indexes (s : Contract) :
    (initializeContract s).state.indexes = s.indexes := by
  unfold initializeContract
  split <;> rfl

/-- Both swap directions leave the storage untouched, on success and on error. -/
theorem swap_base_state_eq (env : Env) (s : Contract) (b q a : Nat) :
    (swap_base_token_for_quote_token env s b q a).state = s := by
  unfold swap_base_token_for_quote_token
  split_ifs <;> try rfl
  dsimp only
  split <;> rfl

/-- `swap_quote_token_for_base_token` leaves the storage untouched. -/
theorem swap_quote_state_eq (env : Env) (s : Contract) (b q a : Nat) :
    (swap_quote_token_for_base_token env s b q a).state = s := by
  unfold swap_quote_token_for_base_token
  split_ifs <;> try rfl
  dsimp only
  split <;> rfl

/-- `create_market` with a zero rate. -/
theorem create_market_rate_zero (env : Env) (s : Contract) (b q ba qa : Nat) :
    create_market env s b q 0 ba qa = errRes .ExchangeRateCanNotBeZero s := by
  unfold create_market
  rw [if_pos rfl]

/-- `create_market` with a zero base-token address. -/
theorem create_market_base_zero (env : Env) (s : Contract) (q r ba qa : Nat)
    (hr : r ≠ 0) :
    create_market env s 0 q r ba qa = errRes .BaseTokenCanNotBeZeroAddress s := by
  unfold create_market
  rw [if_neg hr, if_pos rfl]

/-- `create_market` with a zero quote-token address. -/
theorem create_market_quote_zero (env : Env) (s : Contract) (b r ba qa : Nat)
    (hr : r ≠ 0) (hb : b ≠ 0) :
    create_market env s b 0 r ba qa = errRes .QuoteTokenCanNotBeZeroAddress s := by
  unfold create_market
  rw [if_neg hr, if_neg hb, if_pos rfl]

/-- `create_market` when the supplied base amount misses `quote_amount / rate`. -/
theorem create_market_bad_base (env : Env) (s : Contract) (b q r ba qa : Nat)
    (hr : r ≠ 0) (hb : b ≠ 0) (hq : q ≠ 0) (hba : ba ≠ qa / r) :
    create_market env s b q r ba qa = errRes .IncorrectBaseAmount s := by
  unfold create_market checked_div
  rw [if_neg hr, if_neg hb, if_neg hq, if_neg hr]
  simp [hba]

/-- `create_market` when `base_amount * rate` overflows 256 bits. -/
theorem create_market_overflow (env : Env) (s : Contract) (b q r ba qa : Nat)
    (hr : r ≠ 0) (hb : b ≠ 0) (hq : q ≠ 0) (hba : ba = qa / r)
    (hov : ¬ ba * r < U256MOD) :
    create_market env s b q r ba qa = errRes .MultiplicationOverflow s := by
  subst hba
  unfold create_market checked_div checked_mul
  rw [if_neg hr, if_neg hb, if_neg hq, if_neg hr]
  simp [hov]

/-- `create_market` when the supplied quote amount misses `base_amount * rate`. -/
theorem create_market_bad_quote (env : Env) (s : Contract) (b q r ba qa : Nat)
    (hr : r ≠ 0) (hb : b ≠ 0) (hq : q ≠ 0) (hba : ba = qa / r)
    (hov : ba * r < U256MOD) (hqa : qa ≠ ba * r) :
    create_market env s b q r ba qa = errRes .IncorrectQuoteAmount s := by
  subst hba
  unfold create_market checked_div checked_mul
  rw [if_neg hr, if_neg hb, if_neg hq, if_neg hr]
  simp [hov, hqa]

/-- `create_market` on a pair that is already indexed. -/
theorem create_market_exists_err (env : Env) (s : Contract) (b q r ba qa : Nat)
    (hr : r ≠ 0) (hb : b ≠ 0) (hq : q ≠ 0)
    (hqa : qa = ba * r) (hov : ba * r < U256MOD)
    (hidx : s.indexes b q ≠ 0) :
    create_market env s b q r ba qa = errRes .MarketExists s := by
  subst hqa
  have hba : ba * r / r = ba := Nat.mul_div_cancel ba (Nat.pos_of_ne_zero hr)
  unfold create_market checked_div checked_mul
  rw [if_neg hr, if_neg hb, if_neg hq, if_neg hr]
  simp [hba, hov, hidx]

/-- Success characterization of `create_market`: the market is stored under
the pre-increment counter value, the pair is indexed to it, the counter is
bumped, and the post-increment value is returned. -/
theorem create_market_ok (env : Env) (s : Contract) (b q r ba qa : Nat)
    (hr : r ≠ 0) (hb : b ≠ 0) (hq : q ≠ 0)
    (hqa : qa = ba * r) (hov : ba * r < U256MOD)
    (hidx : s.indexes b q = 0) :
    create_market env s b q r ba qa =
      ⟨.ok ((s.market_index + 1) % U64MOD),
       ⟨s.initialized, (s.market_index + 1) % U64MOD,
        updMarkets s.markets s.market_index ⟨b, q, r⟩,
        updIndexes s.indexes b q s.market_index⟩,
       [.transferFrom b env.sender env.contractAddress ba,
        .transferFrom q env.sender env.contractAddress qa],
       [.MarketCreated b q r]⟩ := by
  subst hqa
  have hba : ba * r / r = ba := Nat.mul_div_cancel ba (Nat.pos_of_ne_zero hr)
  unfold create_market checked_div checked_mul
  rw [if_neg hr, if_neg hb, if_neg hq, if_neg hr]
  simp [hba, hov, hidx]

/-- Every `create_market` call either returns an error with the storage
untouched, or satisfies all validation conditions and succeeds. -/
theorem create_market_cases (env : Env) (s : Contract) (b q r ba qa : Nat) :
    (∃ e, create_market env s b q r ba qa = errRes e s) ∨
    (r ≠ 0 ∧ b ≠ 0 ∧ q ≠ 0 ∧ qa = ba * r ∧ ba * r < U256MOD ∧ s.indexes b q = 0 ∧
     create_market env s b q r ba qa =
       ⟨.ok ((s.market_index + 1) % U64MOD),
        ⟨s.initialized, (s.market_index + 1) % U64MOD,
         updMarkets s.markets s.market_index ⟨b, q, r⟩,
         updIndexes s.indexes b q s.market_index⟩,
        [.transferFrom b env.sender env.contractAddress ba,
         .transferFrom q env.sender env.contractAddress qa],
        [.MarketCreated b q r]⟩) := by
  by_cases hr : r = 0
  · subst hr; exact .inl ⟨_, create_market_rate_zero env s b q ba qa⟩
  by_cases hb : b = 0
  · subst hb; exact .inl ⟨_, create_market_base_zero env s q r ba qa hr⟩
  by_cases hq : q = 0
  · subst hq; exact .inl ⟨_, create_market_quote_zero env s b r ba qa hr hb⟩
  by_cases hba : ba = qa / r
  case neg => exact .inl ⟨_, create_market_bad_base env s b q r ba qa hr hb hq hba⟩
  by_cases hov : ba * r < U256MOD
  case neg => exact .inl ⟨_, create_market_overflow env s b q r ba qa hr hb hq hba hov⟩
  by_cases hqa : qa = ba * r
  case neg => exact .inl ⟨_, create_market_bad_quote env s b q r ba qa hr hb hq hba hov hqa⟩
  by_cases hidx : s.indexes b q = 0
  case neg => exact .inl ⟨_, create_market_exists_err env s b q r ba qa hr hb hq hqa hov hidx⟩
  exact .inr ⟨hr, hb, hq, hqa, hov, hidx,
    create_market_ok env s b q r ba qa hr hb hq hqa hov hidx⟩

/-- Inversion of a successful `create_market`: every validation condition
held, the returned id is the post-increment counter, and the new storage is
the three-write update. -/
theorem create_market_ok_inv (env : Env) (s : Contract) (b q r ba qa id : Nat)
    (h : (create_market env s b q r ba qa).ret = .ok id) :
    r ≠ 0 ∧ b ≠ 0 ∧ q ≠ 0 ∧ qa = ba * r ∧ ba * r < U256MOD ∧ s.indexes b q = 0 ∧
    id = (s.market_index + 1) % U64MOD ∧
    (create_market env s b q r ba qa).state =
      ⟨s.initialized, (s.market_index + 1) % U64MOD,
       updMarkets s.markets s.market_index ⟨b, q, r⟩,
       updIndexes s.indexes b q s.market_index⟩ := by
  rcases create_market_cases env s b q r ba qa with ⟨e, he⟩ | ⟨hr, hb, hq, hqa, hov, hidx, hok⟩
  · rw [he] at h
    exact absurd h (by simp [errRes])
  · rw [hok] at h
    have hid : id = (s.market_index + 1) % U64MOD := (Except.ok.inj h).symm
    exact ⟨hr, hb, hq, hqa, hov, hidx, hid, by rw [hok]⟩

/-- When a pair is already indexed, `create_market` on it can only fail, and
fails leaving the storage untouched. -/
theorem create_market_fail_of_indexes_ne (env : Env) (s : Contract) (b q r ba qa : Nat)
    (hidx : s.indexes b q ≠ 0) :
    ∃ e, create_market env s b q r ba qa = errRes e s := by
  rcases create_market_cases env s b q r ba qa with he | ⟨_, _, _, _, _, hidx0, _⟩
  · exact he
  · exact absurd hidx0 hidx

/-- A failed cross-check yields one of the three cross-check errors. -/
theorem create_market_cross_fail (env : Env) (s : Contract) (b q r ba qa : Nat)
    (hr : r ≠ 0) (hb : b ≠ 0) (hq : q ≠ 0) (hne : qa ≠ ba * r) :
    create_market env s b q r ba qa = errRes .IncorrectBaseAmount s ∨
    create_market env s b q r ba qa = errRes .MultiplicationOverflow s ∨
    create_market env s b q r ba qa = errRes .IncorrectQuoteAmount s := by
  by_cases hba : ba = qa / r
  case neg => exact .inl (create_market_bad_base env s b q r ba qa hr hb hq hba)
  by_cases hov : ba * r < U256MOD
  case neg => exact .inr (.inl (create_market_overflow env s b q r ba qa hr hb hq hba hov))
  exact .inr (.inr (create_market_bad_quote env s b q r ba qa hr hb hq hba hov
    fun h => hne h))

/-- When the amounts match the rate, `create_market` passes the cross-checks:
it either succeeds or stops at `MarketExists`. -/
theorem create_market_pass (env : Env) (s : Contract) (b q r ba qa : Nat)
    (hr : r ≠ 0) (hb : b ≠ 0) (hq : q ≠ 0)
    (hqa : qa = ba * r) (hov : ba * r < U256MOD) :
    (create_market env s b q r ba qa).ret = .ok ((s.market_index + 1) % U64MOD) ∨
    create_market env s b q r ba qa = errRes .MarketExists s := by
  by_cases hidx : s.indexes b q = 0
  · left
    rw [create_market_ok env s b q r ba qa hr hb hq hqa hov hidx]
  · right
    exact create_market_exists_err env s b q r ba qa hr hb hq hqa hov hidx

/-- A successful `create_market` writes the pair's index entry only when that
entry was zero, so a nonzero entry survives any `create_market` call. -/
theorem create_market_indexes_pres (env : Env) (s : Contract) (b' q' r ba qa b q : Nat)
    (hne : s.indexes b q ≠ 0) :
    (create_market env s b' q' r ba qa).state.indexes b q = s.indexes b q := by
  rcases create_market_cases env s b' q' r ba qa with ⟨e, he⟩ | ⟨_, _, _, _, _, hidx0, hok⟩
  · rw [he]; rfl
  · rw [hok]
    show updIndexes s.indexes b' q' s.market_index b q = s.indexes b q
    unfold updIndexes
    split
    · next h =>
        rcases h with ⟨hb, hq⟩
        subst hb; subst hq
        exact absurd hidx0 hne
    · rfl

/-- `swap_base_token_for_quote_token` with a zero amount. -/
theorem swap_base_zero_amount (env : Env) (s : Contract) (b q : Nat) :
    swap_base_token_for_quote_token env s b q 0 = errRes .AmountCanNotBeZero s := by
  unfold swap_base_token_for_quote_token
  rw [if_pos rfl]

/-- `swap_base_token_for_quote_token` with a zero base-token address. -/
theorem swap_base_base_zero (env : Env) (s : Contract) (q a : Nat) (ha : a ≠ 0) :
    swap_base_token_for_quote_token env s 0 q a = errRes .BaseTokenCanNotBeZeroAddress s := by
  unfold swap_base_token_for_quote_token
  rw [if_neg ha, if_pos rfl]

/-- `swap_base_token_for_quote_token` with a zero quote-token address. -/
theorem swap_base_quote_zero (env : Env) (s : Contract) (b a : Nat)
    (ha : a ≠ 0) (hb : b ≠ 0) :
    swap_base_token_for_quote_token env s b 0 a = errRes .QuoteTokenCanNotBeZeroAddress s := by
  unfold swap_base_token_for_quote_token
  rw [if_neg ha, if_neg hb, if_pos rfl]

/-- `swap_base_token_for_quote_token` when the product overflows 256 bits. -/
theorem swap_base_overflow (env : Env) (s : Contract) (b q a : Nat)
    (ha : a ≠ 0) (hb : b ≠ 0) (hq : q ≠ 0)
    (hov : ¬ a * (s.markets (s.indexes b q)).exchange_rate < U256MOD) :
    swap_base_token_for_quote_token env s b q a = errRes .MultiplicationOverflow s := by
  unfold swap_base_token_for_quote_token checked_mul
  rw [if_neg ha, if_neg hb, if_neg hq]
  simp [hov]

/-- Success characterization of `swap_base_token_for_quote_token`: the quote
amount is the base amount times the rate of the market the pair resolves to
(the default market, with rate 0, when the pair is unindexed). -/
theorem swap_base_ok (env : Env) (s : Contract) (b q a : Nat)
    (ha : a ≠ 0) (hb : b ≠ 0) (hq : q ≠ 0)
    (hov : a * (s.markets (s.indexes b q)).exchange_rate < U256MOD) :
    swap_base_token_for_quote_token env s b q a =
      ⟨.ok (), s,
       [.transferFrom (s.markets (s.indexes b q)).base_token env.sender env.contractAddress a,
        .transfer (s.markets (s.indexes b q)).quote_token env.sender
          (a * (s.markets (s.indexes b q)).exchange_rate)],
       [.SwappedBaseTokenForQuoteToken b q a
          (a * (s.markets (s.indexes b q)).exchange_rate)]⟩ := by
  unfold swap_base_token_for_quote_token checked_mul
  rw [if_neg ha, if_neg hb, if_neg hq]
  simp [hov]

/-- `swap_quote_token_for_base_token` with a zero amount. -/
theorem swap_quote_zero_amount (env : Env) (s : Contract) (b q : Nat) :
    swap_quote_token_for_base_token env s b q 0 = errRes .AmountCanNotBeZero s := by
  unfold swap_quote_token_for_base_token
  rw [if_pos rfl]

/-- `swap_quote_token_for_base_token` with a zero base-token address. -/
theorem swap_quote_base_zero (env : Env) (s : Contract) (q a : Nat) (ha : a ≠ 0) :
    swap_quote_token_for_base_token env s 0 q a = errRes .BaseTokenCanNotBeZeroAddress s := by
  unfold swap_quote_token_for_base_token
  rw [if_neg ha, if_pos rfl]

/-- `swap_quote_token_for_base_token` with a zero quote-token address. -/
theorem swap_quote_quote_zero (env : Env) (s : Contract) (b a : Nat)
    (ha : a ≠ 0) (hb : b ≠ 0) :
    swap_quote_token_for_base_token env s b 0 a = errRes .QuoteTokenCanNotBeZeroAddress s := by
  unfold swap_quote_token_for_base_token
  rw [if_neg ha, if_neg hb, if_pos rfl]

/-- `swap_quote_token_for_base_token` when the resolved market's rate is zero. -/
theorem swap_quote_rate_zero (env : Env) (s : Contract) (b q a : Nat)
    (ha : a ≠ 0) (hb : b ≠ 0) (hq : q ≠ 0)
    (hrate : (s.markets (s.indexes b q)).exchange_rate = 0) :
    swap_quote_token_for_base_token env s b q a = errRes .DivisionUnderflow s := by
  unfold swap_quote_token_for_base_token checked_div
  rw [if_neg ha, if_neg hb, if_neg hq]
  simp [hrate]

/-- Success characterization of `swap_quote_token_for_base_token`: the base
amount is the quote amount divided (truncating) by the resolved market's rate. -/
theorem swap_quote_ok (env : Env) (s : Contract) (b q a : Nat)
    (ha : a ≠ 0) (hb : b ≠ 0) (hq : q ≠ 0)
    (hrate : (s.markets (s.indexes b q)).exchange_rate ≠ 0) :
    swap_quote_token_for_base_token env s b q a =
      ⟨.ok (), s,
       [.transferFrom (s.markets (s.indexes b q)).quote_token env.sender env.contractAddress a,
        .transfer (s.markets (s.indexes b q)).base_token env.sender
          (a / (s.markets (s.indexes b q)).exchange_rate)],
       []⟩ := by
  unfold swap_quote_token_for_base_token checked_div
  rw [if_neg ha, if_neg hb, if_neg hq]
  simp [hrate]

/-- A nonzero index entry survives one public call. -/
theorem step_indexes_ne {s t : Contract} (h : Step s t) (b q : Nat)
    (hne : s.indexes b q ≠ 0) : t.indexes b q ≠ 0 := by
  cases h with
  | init s => rw [initializeContract_state_indexes]; exact hne
  | create env s b' q' r ba qa =>
      rw [create_market_indexes_pres env s b' q' r ba qa b q hne]; exact hne
  | swapB env s b' q' a => rw [swap_base_state_eq]; exact hne
  | swapQ env s b' q' a => rw [swap_quote_state_eq]; exact hne

/-- A nonzero index entry survives any sequence of public calls. -/
theorem reach_indexes_ne {s t : Contract} (h : Reach s t) (b q : Nat)
    (hne : s.indexes b q ≠ 0) : t.indexes b q ≠ 0 := by
  induction h with
  | refl => exact hne
  | tail _ hs ih => exact step_indexes_ne hs b q ih

/-- The result of `create_market` does not depend on whether the external
transfers succeed: the source discards their results. -/
theorem create_market_callOk_irrelevant (ok ok' : TokenCall → Bool) (sender addr : Nat)
    (s : Contract) (b q r ba qa : Nat) :
    create_market ⟨sender, addr, ok⟩ s b q r ba qa =
      create_market ⟨sender, addr, ok'⟩ s b q r ba qa := by
  by_cases hr : r = 0
  · subst hr
    rw [create_market_rate_zero ⟨sender, addr, ok⟩ s b q ba qa,
      create_market_rate_zero ⟨sender, addr, ok'⟩ s b q ba qa]
  by_cases hb : b = 0
  · subst hb
    rw [create_market_base_zero ⟨sender, addr, ok⟩ s q r ba qa hr,
      create_market_base_zero ⟨sender, addr, ok'⟩ s q r ba qa hr]
  by_cases hq : q = 0
  · subst hq
    rw [create_market_quote_zero ⟨sender, addr, ok⟩ s b r ba qa hr hb,
      create_market_quote_zero ⟨sender, addr, ok'⟩ s b r ba qa hr hb]
  by_cases hba : ba = qa / r
  case neg =>
    rw [create_market_bad_base ⟨sender, addr, ok⟩ s b q r ba qa hr hb hq hba,
      create_market_bad_base ⟨sender, addr, ok'⟩ s b q r ba qa hr hb hq hba]
  by_cases hov : ba * r < U256MOD
  case neg =>
    rw [create_market_overflow ⟨sender, addr, ok⟩ s b q r ba qa hr hb hq hba hov,
      create_market_overflow ⟨sender, addr, ok'⟩ s b q r ba qa hr hb hq hba hov]
  by_cases hqa : qa = ba * r
  case neg =>
    rw [create_market_bad_quote ⟨sender, addr, ok⟩ s b q r ba qa hr hb hq hba hov hqa,
      create_market_bad_quote ⟨sender, addr, ok'⟩ s b q r ba qa hr hb hq hba hov hqa]
  by_cases hidx : s.indexes b q = 0
  case neg =>
    rw [create_market_exists_err ⟨sender, addr, ok⟩ s b q r ba qa hr hb hq hqa hov hidx,
      create_market_exists_err ⟨sender, addr, ok'⟩ s b q r ba qa hr hb hq hqa hov hidx]
  rw [create_market_ok ⟨sender, addr, ok⟩ s b q r ba qa hr hb hq hqa hov hidx,
    create_market_ok ⟨sender, addr, ok'⟩ s b q r ba qa hr hb hq hqa hov hidx]

/-- The result of `swap_base_token_for_quote_token` does not depend on
whether the external transfers succeed. -/
theorem swap_base_callOk_irrelevant (ok ok' : TokenCall → Bool) (sender addr : Nat)
    (s : Contract) (b q a : Nat) :
    swap_base_token_for_quote_token ⟨sender, addr, ok⟩ s b q a =
      swap_base_token_for_quote_token ⟨sender, addr, ok'⟩ s b q a := by
  by_cases ha : a = 0
  · subst ha
    rw [swap_base_zero_amount ⟨sender, addr, ok⟩ s b q,
      swap_base_zero_amount ⟨sender, addr, ok'⟩ s b q]
  by_cases hb : b = 0
  · subst hb
    rw [swap_base_base_zero ⟨sender, addr, ok⟩ s q a ha,
      swap_base_base_zero ⟨sender, addr, ok'⟩ s q a ha]
  by_cases hq : q = 0
  · subst hq
    rw [swap_base_quote_zero ⟨sender, addr, ok⟩ s b a ha hb,
      swap_base_quote_zero ⟨sender, addr, ok'⟩ s b a ha hb]
  by_cases hov : a * (s.markets (s.indexes b q)).exchange_rate < U256MOD
  case neg =>
    rw [swap_base_overflow ⟨sender, addr, ok⟩ s b q a ha hb hq hov,
      swap_base_overflow ⟨sender, addr, ok'⟩ s b q a ha hb hq hov]
  rw [swap_base_ok ⟨sender, addr, ok⟩ s b q a ha hb hq hov,
    swap_base_ok ⟨sender, addr, ok'⟩ s b q a ha hb hq hov]

/-- The result of `swap_quote_token_for_base_token` does not depend on
whether the external transfers succeed. -/
theorem swap_quote_callOk_irrelevant (ok ok' : TokenCall → Bool) (sender addr : Nat)
    (s : Contract) (b q a : Nat) :
    swap_quote_token_for_base_token ⟨sender, addr, ok⟩ s b q a =
      swap_quote_token_for_base_token ⟨sender, addr, ok'⟩ s b q a := by
  by_cases ha : a = 0
  · subst ha
    rw [swap_quote_zero_amount ⟨sender, addr, ok⟩ s b q,
      swap_quote_zero_amount ⟨sender, addr, ok'⟩ s b q]
  by_cases hb : b = 0
  · subst hb
    rw [swap_quote_base_zero ⟨sender, addr, ok⟩ s q a ha,
      swap_quote_base_zero ⟨sender, addr, ok'⟩ s q a ha]
  by_cases hq : q = 0
  · subst hq
    rw [swap_quote_quote_zero ⟨sender, addr, ok⟩ s b a ha hb,
      swap_quote_quote_zero ⟨sender, addr, ok'⟩ s b a ha hb]
  by_cases hrate : (s.markets (s.indexes b q)).exchange_rate = 0
  · rw [swap_quote_rate_zero ⟨sender, addr, ok⟩ s b q a ha hb hq hrate,
      swap_quote_rate_zero ⟨sender, addr, ok'⟩ s b q a ha hb hq hrate]
  rw [swap_quote_ok ⟨sender, addr, ok⟩ s b q a ha hb hq hrate,
    swap_quote_ok ⟨sender, addr, ok'⟩ s b q a ha hb hq hrate]

/-- Reading an updated `indexes` mapping at the updated pair. -/
theorem updIndexes_same (f : Nat → Nat → Nat) (b q v : Nat) :
    updIndexes f b q v b q = v := by
  unfold updIndexes
  rw [if_pos ⟨rfl, rfl⟩]

/-- Reading an updated `markets` mapping at the updated key. -/
theorem updMarkets_same (f : Nat → Market) (k : Nat) (v : Market) :
    updMarkets f k v k = v := by
  unfold updMarkets
  rw [if_pos rfl]

/-! ## The claims -/

/-- C1, counterexample: on a freshly initialized registry,
`create_market(1, 2, 3, 2, 6)` returns id 2, but `fetch_market_id(1, 2)`
then returns 1 (not 2) and `fetch_current_market_index()` returns 2
(not 3): the market is stored under the pre-increment counter while the
post-increment value is returned, so the claimed equalities fail. -/
theorem C1_counterexample :
    (create_market env0 s_init 1 2 3 2 6).ret = .ok 2 ∧
    fetch_market_id (create_market env0 s_init 1 2 3 2 6).state 1 2 = .ok 1 ∧
    fetch_market_id (create_market env0 s_init 1 2 3 2 6).state 1 2 ≠ .ok 2 ∧
    fetch_current_market_index (create_market env0 s_init 1 2 3 2 6).state = .ok 2 ∧
    fetch_current_market_index (create_market env0 s_init 1 2 3 2 6).state ≠ .ok 3 :=
  ⟨by decide, by decide, by decide, by decide, by decide⟩

/-- C1, amended: immediately after a successful `create_market(b,q,r,ba,qa)`
with `qa = ba*r` returning `id` (no counter wrap), `fetch_market_id(b,q)`
returns `id - 1`, `fetch_market_by_tokens(b,q)` returns `(b,q,r)`, and
`fetch_current_market_index()` returns `id`. -/
theorem C1_create_market_fetch_amended (env : Env) (s : Contract) (b q r ba qa id : Nat)
    (hqa : qa = ba * r)
    (hok : (create_market env s b q r ba qa).ret = .ok id)
    (hwrap : s.market_index + 1 < U64MOD) :
    fetch_market_id (create_market env s b q r ba qa).state b q = .ok (id - 1) ∧
    fetch_market_by_tokens (create_market env s b q r ba qa).state b q = .ok (b, q, r) ∧
    fetch_current_market_index (create_market env s b q r ba qa).state = .ok id := by
  obtain ⟨hr, hb, hq, hqa2, hov, hidx, hid, hstate⟩ :=
    create_market_ok_inv env s b q r ba qa id hok
  have hmod : (s.market_index + 1) % U64MOD = s.market_index + 1 := Nat.mod_eq_of_lt hwrap
  subst hid
  rw [hstate, hmod]
  refine ⟨?_, ?_, ?_⟩
  · simp [fetch_market_id, hb, hq, updIndexes_same]
  · simp [fetch_market_by_tokens, hb, hq, updIndexes_same, updMarkets_same]
  · simp [fetch_current_market_index]

/-- C1, witness: the amended theorem applied to the concrete creation
`create_market(1, 2, 3, 2, 6)` on a freshly initialized registry. -/
theorem C1_witness :
    ((6 : Nat) = 2 * 3 ∧
     (create_market env0 s_init 1 2 3 2 6).ret = .ok 2 ∧
     s_init.market_index + 1 < U64MOD) ∧
    (fetch_market_id (create_market env0 s_init 1 2 3 2 6).state 1 2 = .ok 1 ∧
     fetch_market_by_tokens (create_market env0 s_init 1 2 3 2 6).state 1 2 = .ok (1, 2, 3) ∧
     fetch_current_market_index (create_market env0 s_init 1 2 3 2 6).state = .ok 2) :=
  ⟨⟨by decide, by decide, by decide⟩,
   C1_create_market_fetch_amended env0 s_init 1 2 3 2 6 2 (by decide) (by decide) (by decide)⟩

/-- C2: the source discards the results of both external transfer calls
(`let _ = token.transfer_from(...)`), so a failing transfer neither aborts
the operation nor rolls anything back.  The outcome of every mutating entry
point is independent of the transfer verdicts, and with every external
transfer failing, `create_market` still returns Ok, keeps its storage
writes, and `swap_quote_token_for_base_token` still returns Ok. -/
theorem C2_transfer_failure_ignored :
    (∀ (ok ok' : TokenCall → Bool) (sender addr : Nat) (s : Contract) (b q r ba qa a : Nat),
      create_market ⟨sender, addr, ok⟩ s b q r ba qa =
        create_market ⟨sender, addr, ok'⟩ s b q r ba qa ∧
      swap_base_token_for_quote_token ⟨sender, addr, ok⟩ s b q a =
        swap_base_token_for_quote_token ⟨sender, addr, ok'⟩ s b q a ∧
      swap_quote_token_for_base_token ⟨sender, addr, ok⟩ s b q a =
        swap_quote_token_for_base_token ⟨sender, addr, ok'⟩ s b q a) ∧
    (create_market envFail s_init 1 2 3 2 6).ret = .ok 2 ∧
    (create_market envFail s_init 1 2 3 2 6).state.indexes 1 2 = 1 ∧
    (create_market envFail s_init 1 2 3 2 6).calls =
      [.transferFrom 1 100 200 2, .transferFrom 2 100 200 6] ∧
    (swap_quote_token_for_base_token envFail s_mkt 1 2 6).ret = .ok () :=
  ⟨fun ok ok' sender addr s b q r ba qa a =>
    ⟨create_market_callOk_irrelevant ok ok' sender addr s b q r ba qa,
     swap_base_callOk_irrelevant ok ok' sender addr s b q a,
     swap_quote_callOk_irrelevant ok ok' sender addr s b q a⟩,
   by decide, by decide, by decide, by decide⟩

/-- C3, counterexample: `create_market` has no zero-amount check.  With both
amounts zero and nonzero rate and addresses it succeeds — storing the market
and indexing the pair — instead of failing with `AmountCanNotBeZero`. -/
theorem C3_counterexample :
    (create_market env0 s_init 1 2 3 0 0).ret = .ok 2 ∧
    (create_market env0 s_init 1 2 3 0 0).state.indexes 1 2 = 1 ∧
    (create_market env0 s_init 1 2 3 0 0).state.markets 1 = ⟨1, 2, 3⟩ :=
  ⟨by decide, by decide, by decide⟩

/-- C3, amended: the two swap entry points reject a zero amount with
`AmountCanNotBeZero`, and all three mutating entry points reject zero token
addresses (and `create_market` a zero rate) with the matching error, each
time leaving the storage unchanged; `create_market`, however, accepts
zero amounts whenever the cross-checks hold (see the counterexample). -/
theorem C3_zero_rejection_amended (env : Env) (s : Contract) (b q r ba qa a : Nat) :
    create_market env s b q 0 ba qa = errRes .ExchangeRateCanNotBeZero s ∧
    create_market env s 0 q (r + 1) ba qa = errRes .BaseTokenCanNotBeZeroAddress s ∧
    create_market env s (b + 1) 0 (r + 1) ba qa = errRes .QuoteTokenCanNotBeZeroAddress s ∧
    swap_base_token_for_quote_token env s b q 0 = errRes .AmountCanNotBeZero s ∧
    swap_base_token_for_quote_token env s 0 q (a + 1) = errRes .BaseTokenCanNotBeZeroAddress s ∧
    swap_base_token_for_quote_token env s (b + 1) 0 (a + 1) =
      errRes .QuoteTokenCanNotBeZeroAddress s ∧
    swap_quote_token_for_base_token env s b q 0 = errRes .AmountCanNotBeZero s ∧
    swap_quote_token_for_base_token env s 0 q (a + 1) = errRes .BaseTokenCanNotBeZeroAddress s ∧
    swap_quote_token_for_base_token env s (b + 1) 0 (a + 1) =
      errRes .QuoteTokenCanNotBeZeroAddress s :=
  ⟨create_market_rate_zero env s b q ba qa,
   create_market_base_zero env s q (r + 1) ba qa (Nat.succ_ne_zero r),
   create_market_quote_zero env s (b + 1) (r + 1) ba qa (Nat.succ_ne_zero r) (Nat.succ_ne_zero b),
   swap_base_zero_amount env s b q,
   swap_base_base_zero env s q (a + 1) (Nat.succ_ne_zero a),
   swap_base_quote_zero env s (b + 1) (a + 1) (Nat.succ_ne_zero a) (Nat.succ_ne_zero b),
   swap_quote_zero_amount env s b q,
   swap_quote_base_zero env s q (a + 1) (Nat.succ_ne_zero a),
   swap_quote_quote_zero env s (b + 1) (a + 1) (Nat.succ_ne_zero a) (Nat.succ_ne_zero b)⟩

/-- C4, counterexample: after a successful `create_market` for `(1, 2)` on an
initialized registry, a second create for `(1, 2)` with rate 0 fails with
`ExchangeRateCanNotBeZero`, not `MarketExists` (validation runs before the
existence check); and on a never-initialized registry (counter 0) the second
create for the same pair even succeeds, because the first indexed the pair
to 0. -/
theorem C4_counterexample :
    (create_market env0 s_mkt 1 2 0 2 6).ret = .error .ExchangeRateCanNotBeZero ∧
    (create_market env0 s_mkt 1 2 0 2 6).ret ≠ .error .MarketExists ∧
    (create_market env0 initialContract 1 2 3 1 3).ret = .ok 1 ∧
    (create_market env0 s_slot0 1 2 3 1 3).ret = .ok 2 :=
  ⟨by decide, by decide, by decide, by decide⟩

/-- C4, amended: after a successful `create_market` for `(b, q)` on a
registry whose counter is nonzero, every later `create_market` call for the
same `(b, q)` fails with the storage, and hence the counter and the stored
market, unchanged; it fails with `MarketExists` whenever the new rate is
nonzero and the new amounts satisfy the cross-checks (and otherwise with the
earlier validation error). -/
theorem C4_market_exists_amended (env env' : Env) (s t : Contract)
    (b q r ba qa id r' ba' qa' : Nat)
    (hok : (create_market env s b q r ba qa).ret = .ok id)
    (hmi : s.market_index ≠ 0)
    (hreach : Reach (create_market env s b q r ba qa).state t) :
    (∃ e, create_market env' t b q r' ba' qa' = errRes e t) ∧
    (create_market env' t b q r' ba' qa').state = t ∧
    (r' ≠ 0 → qa' = ba' * r' → ba' * r' < U256MOD →
      create_market env' t b q r' ba' qa' = errRes .MarketExists t) := by
  obtain ⟨hr, hb, hq, _, _, hidx, hid, hstate⟩ :=
    create_market_ok_inv env s b q r ba qa id hok
  have hne : (create_market env s b q r ba qa).state.indexes b q ≠ 0 := by
    rw [hstate]
    show updIndexes s.indexes b q s.market_index b q ≠ 0
    rw [updIndexes_same]
    exact hmi
  have hnet : t.indexes b q ≠ 0 := reach_indexes_ne hreach b q hne
  obtain ⟨e, he⟩ := create_market_fail_of_indexes_ne env' t b q r' ba' qa' hnet
  refine ⟨⟨e, he⟩, by rw [he]; rfl, ?_⟩
  intro hr' hqa' hov'
  exact create_market_exists_err env' t b q r' ba' qa' hr' hb hq hqa' hov' hnet

/-- C4, witness: the amended theorem at the concrete scenario — create
`(1, 2, 3, 2, 6)` on the initialized registry, then immediately try
`(1, 2, 5, 1, 5)`. -/
theorem C4_witness :
    ((create_market env0 s_init 1 2 3 2 6).ret = .ok 2 ∧
     s_init.market_index ≠ 0) ∧
    ((∃ e, create_market env0 s_mkt 1 2 5 1 5 = errRes e s_mkt) ∧
     (create_market env0 s_mkt 1 2 5 1 5).state = s_mkt ∧
     ((5 : Nat) ≠ 0 → (5 : Nat) = 1 * 5 → 1 * 5 < U256MOD →
       create_market env0 s_mkt 1 2 5 1 5 = errRes .MarketExists s_mkt)) :=
  ⟨⟨by decide, by decide⟩,
   C4_market_exists_amended env0 env0 s_init s_mkt 1 2 3 2 6 2 5 1 5
     (by decide) (by decide) (Reach.refl s_mkt)⟩

/-- C5: with nonzero rate and token addresses (and the quote amount a
representable `U256` value), the cross-checks of `create_market` fail — with
`IncorrectBaseAmount`, `MultiplicationOverflow` or `IncorrectQuoteAmount` —
exactly when `quote_amount ≠ base_amount * rate`; equivalently they pass
exactly when `quote_amount = base_amount * rate` holds exactly, which also
rules out remainder and overflow. -/
theorem C5_amount_cross_checks (env : Env) (s : Contract) (b q r ba qa : Nat)
    (hr : r ≠ 0) (hb : b ≠ 0) (hq : q ≠ 0) (hqa : qa < U256MOD) :
    ((create_market env s b q r ba qa).ret = .error .IncorrectBaseAmount ∨
     (create_market env s b q r ba qa).ret = .error .MultiplicationOverflow ∨
     (create_market env s b q r ba qa).ret = .error .IncorrectQuoteAmount) ↔
    qa ≠ ba * r := by
  constructor
  · intro h heq
    have hov : ba * r < U256MOD := heq ▸ hqa
    rcases create_market_pass env s b q r ba qa hr hb hq heq hov with hok | hex
    · rcases h with h | h | h <;> rw [hok] at h <;> simp at h
    · rcases h with h | h | h <;> rw [hex] at h <;> simp [errRes] at h
  · intro hne
    rcases create_market_cross_fail env s b q r ba qa hr hb hq hne with h | h | h
    · exact .inl (by rw [h]; rfl)
    · exact .inr (.inl (by rw [h]; rfl))
    · exact .inr (.inr (by rw [h]; rfl))

/-- C5, witness: the cross-check equivalence at the concrete call
`create_market(1, 2, 3, 2, 7)`, where `7 ≠ 2 * 3`. -/
theorem C5_witness :
    ((3 : Nat) ≠ 0 ∧ (1 : Nat) ≠ 0 ∧ (2 : Nat) ≠ 0 ∧ (7 : Nat) < U256MOD) ∧
    (((create_market env0 s_init 1 2 3 2 7).ret = .error .IncorrectBaseAmount ∨
      (create_market env0 s_init 1 2 3 2 7).ret = .error .MultiplicationOverflow ∨
      (create_market env0 s_init 1 2 3 2 7).ret = .error .IncorrectQuoteAmount) ↔
     (7 : Nat) ≠ 2 * 3) :=
  ⟨⟨by decide, by decide, by decide, by decide⟩,
   C5_amount_cross_checks env0 s_init 1 2 3 2 7 (by decide) (by decide) (by decide) (by decide)⟩

/-- C6, counterexample: a reachable state (one `create_market` on a
never-initialized registry) has `indexes 1 2 = 0` while slot 0 holds the
market `(1, 2, 3)`: there `swap_quote_token_for_base_token` succeeds instead
of failing with `DivisionUnderflow`, and `swap_base_token_for_quote_token`
computes the nonzero quote amount 3, not 0. -/
theorem C6_counterexample :
    s_slot0.indexes 1 2 = 0 ∧
    (swap_quote_token_for_base_token env0 s_slot0 1 2 3).ret = .ok () ∧
    (swap_quote_token_for_base_token env0 s_slot0 1 2 3).ret ≠ .error .DivisionUnderflow ∧
    (swap_base_token_for_quote_token env0 s_slot0 1 2 1).events =
      [.SwappedBaseTokenForQuoteToken 1 2 1 3] :=
  ⟨by decide, by decide, by decide, by decide⟩

/-- C6, amended: when `indexes[base][quote] = 0` and slot 0 still holds the
default market (rate 0), with nonzero addresses and amount:
`swap_base_token_for_quote_token` succeeds computing quote amount 0, while
`swap_quote_token_for_base_token` fails with `DivisionUnderflow`. -/
theorem C6_default_market_swaps_amended (env : Env) (s : Contract) (b q a : Nat)
    (hidx : s.indexes b q = 0) (hm0 : (s.markets 0).exchange_rate = 0)
    (hb : b ≠ 0) (hq : q ≠ 0) (ha : a ≠ 0) :
    swap_base_token_for_quote_token env s b q a =
      ⟨.ok (), s,
       [.transferFrom (s.markets 0).base_token env.sender env.contractAddress a,
        .transfer (s.markets 0).quote_token env.sender 0],
       [.SwappedBaseTokenForQuoteToken b q a 0]⟩ ∧
    swap_quote_token_for_base_token env s b q a = errRes .DivisionUnderflow s := by
  have hrate : (s.markets (s.indexes b q)).exchange_rate = 0 := by
    rw [hidx]; exact hm0
  constructor
  · have hov : a * (s.markets (s.indexes b q)).exchange_rate < U256MOD := by
      rw [hrate, Nat.mul_zero]; decide
    rw [swap_base_ok env s b q a ha hb hq hov]
    simp [hidx, hm0]
  · exact swap_quote_rate_zero env s b q a ha hb hq hrate

/-- C6, witness: the amended theorem on the pristine registry (no markets at
all) at the pair `(1, 2)` and amount 7. -/
theorem C6_witness :
    (initialContract.indexes 1 2 = 0 ∧
     (initialContract.markets 0).exchange_rate = 0 ∧
     (1 : Nat) ≠ 0 ∧ (2 : Nat) ≠ 0 ∧ (7 : Nat) ≠ 0) ∧
    (swap_base_token_for_quote_token env0 initialContract 1 2 7 =
      ⟨.ok (), initialContract,
       [.transferFrom (initialContract.markets 0).base_token env0.sender
          env0.contractAddress 7,
        .transfer (initialContract.markets 0).quote_token env0.sender 0],
       [.SwappedBaseTokenForQuoteToken 1 2 7 0]⟩ ∧
     swap_quote_token_for_base_token env0 initialContract 1 2 7 =
       errRes .DivisionUnderflow initialContract) :=
  ⟨⟨by decide, by decide, by decide, by decide, by decide⟩,
   C6_default_market_swaps_amended env0 initialContract 1 2 7
     (by decide) (by decide) (by decide) (by decide) (by decide)⟩

/-- C7: the index/markets consistency invariant is violated in a reachable
state.  Two creates before `initialize` (slots 0 and 1, `indexes 1 3 = 1`),
then `initialize` (which resets the counter to 1), then a create for
`(4, 5)` that overwrites slot 1: afterwards `indexes 1 3 = 1` still, but
`markets[1]` is the `(4, 5)` market, and `fetch_market_by_tokens(1, 3)`
returns `(4, 5, 1)`. -/
theorem C7_index_consistency_violated :
    s7b.indexes 1 3 = 1 ∧ s7b.markets 1 = ⟨1, 3, 1⟩ ∧
    s7d.indexes 1 3 = 1 ∧ s7d.markets 1 = ⟨4, 5, 1⟩ ∧
    (s7d.markets 1).base_token ≠ 1 ∧
    fetch_market_by_tokens s7d 1 3 = .ok (4, 5, 1) :=
  ⟨by decide, by decide, by decide, by decide, by decide, by decide⟩

/-- C8: swapping `ba` base for quote computes `qa = ba * r` (observable in
the swap event), leaves the storage unchanged, and immediately swapping that
`qa` back computes exactly `ba` (observable in the outgoing transfer), since
`r` always divides `ba * r` evenly — given a nonzero market rate, nonzero
inputs and no multiplication overflow. -/
theorem C8_swap_round_trip (env : Env) (s : Contract) (b q ba : Nat)
    (hb : b ≠ 0) (hq : q ≠ 0) (hba : ba ≠ 0)
    (hr : (s.markets (s.indexes b q)).exchange_rate ≠ 0)
    (hov : ba * (s.markets (s.indexes b q)).exchange_rate < U256MOD) :
    (swap_base_token_for_quote_token env s b q ba).ret = .ok () ∧
    (swap_base_token_for_quote_token env s b q ba).state = s ∧
    (swap_base_token_for_quote_token env s b q ba).events =
      [.SwappedBaseTokenForQuoteToken b q ba
        (ba * (s.markets (s.indexes b q)).exchange_rate)] ∧
    swap_quote_token_for_base_token env (swap_base_token_for_quote_token env s b q ba).state
        b q (ba * (s.markets (s.indexes b q)).exchange_rate) =
      ⟨.ok (), s,
       [.transferFrom (s.markets (s.indexes b q)).quote_token env.sender env.contractAddress
          (ba * (s.markets (s.indexes b q)).exchange_rate),
        .transfer (s.markets (s.indexes b q)).base_token env.sender ba],
       []⟩ := by
  have h1 := swap_base_ok env s b q ba hba hb hq hov
  have hstate := swap_base_state_eq env s b q ba
  have hqa_ne : ba * (s.markets (s.indexes b q)).exchange_rate ≠ 0 :=
    Nat.mul_ne_zero hba hr
  have h2 := swap_quote_ok env s b q
    (ba * (s.markets (s.indexes b q)).exchange_rate) hqa_ne hb hq hr
  have hdiv : ba * (s.markets (s.indexes b q)).exchange_rate /
      (s.markets (s.indexes b q)).exchange_rate = ba :=
    Nat.mul_div_cancel ba (Nat.pos_of_ne_zero hr)
  refine ⟨by rw [h1], hstate, by rw [h1], ?_⟩
  rw [hstate, h2, hdiv]

/-- C8, witness: the round trip on the registry holding the market
`(1, 2, 3)`, swapping 5 base: out 15 quote, and 15 back buys exactly 5. -/
theorem C8_witness :
    ((1 : Nat) ≠ 0 ∧ (2 : Nat) ≠ 0 ∧ (5 : Nat) ≠ 0 ∧
     (s_mkt.markets (s_mkt.indexes 1 2)).exchange_rate ≠ 0 ∧
     5 * (s_mkt.markets (s_mkt.indexes 1 2)).exchange_rate < U256MOD) ∧
    ((swap_base_token_for_quote_token env0 s_mkt 1 2 5).ret = .ok () ∧
     (swap_base_token_for_quote_token env0 s_mkt 1 2 5).state = s_mkt ∧
     (swap_base_token_for_quote_token env0 s_mkt 1 2 5).events =
       [.SwappedBaseTokenForQuoteToken 1 2 5
         (5 * (s_mkt.markets (s_mkt.indexes 1 2)).exchange_rate)] ∧
     swap_quote_token_for_base_token env0 (swap_base_token_for_quote_token env0 s_mkt 1 2 5).state
         1 2 (5 * (s_mkt.markets (s_mkt.indexes 1 2)).exchange_rate) =
       ⟨.ok (), s_mkt,
        [.transferFrom (s_mkt.markets (s_mkt.indexes 1 2)).quote_token env0.sender
           env0.contractAddress (5 * (s_mkt.markets (s_mkt.indexes 1 2)).exchange_rate),
         .transfer (s_mkt.markets (s_mkt.indexes 1 2)).base_token env0.sender 5],
        []⟩) :=
  ⟨⟨by decide, by decide, by decide, by decide, by decide⟩,
   C8_swap_round_trip env0 s_mkt 1 2 5 (by decide) (by decide) (by decide)
     (by decide) (by decide)⟩

/-- C9: both swap directions leave the entire persisted storage — all four
Registry fields — unchanged, on success and on every error path; the storage
is only written by `create_market` and `initialize` (the fetch accessors are
pure projections of the storage in this embedding, mirroring their `&self`
receivers). -/
theorem C9_swap_frame (env : Env) (s : Contract) (b q a : Nat) :
    (swap_base_token_for_quote_token env s b q a).state = s ∧
    (swap_quote_token_for_base_token env s b q a).state = s :=
  ⟨swap_base_state_eq env s b q a, swap_quote_state_eq env s b q a⟩

/-- C10, counterexample: in the reachable state with `indexes 1 2 = 0` but a
market in slot 0, `fetch_exchange_rate(1, 2)` returns `Ok(3)` — not `Ok(0)`
— and `fetch_market_by_tokens(1, 2)` returns `Ok((1, 2, 3))`, not the
zero-default triple. -/
theorem C10_counterexample :
    s_slot0.indexes 1 2 = 0 ∧
    fetch_exchange_rate s_slot0 1 2 = .ok 3 ∧
    fetch_exchange_rate s_slot0 1 2 ≠ .ok 0 ∧
    fetch_market_by_tokens s_slot0 1 2 = .ok (1, 2, 3) ∧
    fetch_market_by_tokens s_slot0 1 2 ≠ .ok (0, 0, 0) :=
  ⟨by decide, by decide, by decide, by decide, by decide⟩

/-- C10, amended: for nonzero addresses with no market for the pair
(`indexes[base][quote] = 0`) and slot 0 still the default market,
`fetch_exchange_rate` returns `Ok(0)` and `fetch_market_by_tokens` returns
`Ok((0, 0, 0))` — both succeed with default values rather than erroring. -/
theorem C10_fetch_defaults_amended (s : Contract) (b q : Nat)
    (hb : b ≠ 0) (hq : q ≠ 0) (hidx : s.indexes b q = 0)
    (hm0 : s.markets 0 = defaultMarket) :
    fetch_exchange_rate s b q = .ok 0 ∧
    fetch_market_by_tokens s b q = .ok (0, 0, 0) := by
  constructor
  · unfold fetch_exchange_rate
    rw [if_neg hb, if_neg hq, hidx, hm0]
    rfl
  · unfold fetch_market_by_tokens
    rw [if_neg hb, if_neg hq, hidx, hm0]
    rfl

/-- C10, witness: the amended theorem on the pristine registry at `(1, 2)`. -/
theorem C10_witness :
    ((1 : Nat) ≠ 0 ∧ (2 : Nat) ≠ 0 ∧ initialContract.indexes 1 2 = 0 ∧
     initialContract.markets 0 = defaultMarket) ∧
    (fetch_exchange_rate initialContract 1 2 = .ok 0 ∧
     fetch_market_by_tokens initialContract 1 2 = .ok (0, 0, 0)) :=
  ⟨⟨by decide, by decide, by decide, by decide⟩,
   C10_fetch_defaults_amended initialContract 1 2 (by decide) (by decide)
     (by decide) (by decide)⟩

end StylusDorg
